import Mathlib

/-!
# Verification of `src/modules/animations/AnimatedCounter.min.mjs`

Shallow embedding of the `AnimatedCounter` class (ElusiveConcepts/js-lib).
JavaScript numbers are modelled as `ℚ`; the JavaScript `NaN` produced by a
failed `parseInt`/`parseFloat` is modelled as `Option ℚ = none` in the
construction layer.  `Intl.NumberFormat` is a platform API, not repository
code, so the built formatter instance is abstracted as a function
`fmt : ℚ → String` passed to every operation that uses `this.formatter`.
`document`/`window` interactions are modelled as explicit parameters:
`inV : Bool` is the result of `this.inView()` (a pure read of layout),
`now : ℚ` is `document.timeline.currentTime`, and the registration state of
the document scroll listener is the boolean field `listening`.
`requestAnimationFrame` scheduling is modelled by delivering frame events
with an arbitrary timestamp `t : ℚ`.
-/

set_option autoImplicit false

namespace AnimatedCounter

/-- The value held by the JavaScript field `this.current`.  It is a number
almost everywhere, but `reset()` assigns it the *formatted string*
(`this.current = this.formatter.format(this.target)`), so the model keeps
both alternatives. -/
inductive JSVal where
  | num (q : ℚ)
  | str (s : String)
deriving DecidableEq

/-- Class constants (source: `static get ANIM_DISABLED() { return -1; }` etc.,
lines 90-93). -/
def ANIM_DISABLED : Int := -1

/-- Source line 91. -/
def ANIM_READY : Int := 0

/-- Source line 92. -/
def ANIM_ACTIVE : Int := 1

/-- Source line 93. -/
def ANIM_COMPLETE : Int := 2

/-- The mutable instance fields of a constructed counter that the animation
state machine reads and writes (source lines 96-135).  `textContent` models
`this.node.textContent` (the counter exclusively owns its node) and
`listening` models whether `this.animateOnScroll` is currently registered as
a document scroll listener.  `debug` and `language` are omitted: `debug`
only controls a `console.log` and `language` only feeds the abstracted
`Intl.NumberFormat`. -/
structure Counter where
  start : ℚ
  target : ℚ
  increment : ℚ
  duration : ℚ
  timestamp : ℚ
  limit : ℚ
  count : ℚ
  current : JSVal
  textContent : String
  state : Int
  listening : Bool
deriving DecidableEq

/-- `steps()` (source lines 378-381): `return this.target - this.start /
this.increment;` — translated verbatim, keeping JavaScript's operator
precedence (division binds tighter than subtraction). -/
def steps (s : Counter) : ℚ :=
  s.target - s.start / s.increment

/-- The `this.current >= this.target` comparison at source line 298.  While
the state is `ANIM_ACTIVE`, `this.current` is always a number (it is set to
`this.start` on the READY→ACTIVE transition, line 269, and to a computed
number on every frame with positive elapsed time, lines 286-292), so the
string branch is unreachable at this comparison; see
`active_current_isNum`.  JavaScript would coerce a string operand with
`ToNumber`; the unreachable branch returns `false`, which is the JavaScript
result for every formatted string containing a grouping separator, currency
symbol or unit suffix. -/
def currentGE (c : JSVal) (t : ℚ) : Bool :=
  match c with
  | .num q => decide (t ≤ q)
  | .str _ => false

/-- `reset()` (source lines 365-371): sets `timestamp = 0`, assigns the
formatted target to `this.current` **as a string**, writes it to the node,
and sets the state to READY. -/
def reset (fmt : ℚ → String) (s : Counter) : Counter :=
  { s with
      timestamp := 0
      current := JSVal.str (fmt s.target)
      textContent := fmt s.target
      state := ANIM_READY }

/-- `animate(timestamp)` (source lines 261-305).  `now` models
`document.timeline.currentTime` (read only in the READY branch, line 271)
and `t` the frame-callback timestamp argument.  `requestAnimationFrame`
calls are scheduling side effects and leave the instance fields unchanged. -/
def animate (fmt : ℚ → String) (now t : ℚ) (s : Counter) : Counter :=
  if s.state = ANIM_DISABLED then s
  else if s.state = ANIM_COMPLETE then s
  else if s.state = ANIM_READY then
    { s with
        current := JSVal.num s.start
        state := ANIM_ACTIVE
        timestamp := now
        count := s.count + 1 }
  else
    let elapsed := t - s.timestamp
    let s1 :=
      if 0 < elapsed then
        let percent_complete := elapsed / s.duration
        let steps_complete := steps s * percent_complete
        let c1 : ℚ := (round (steps_complete / s.increment) : ℚ) * s.increment
        let c2 : ℚ := if s.target ≤ c1 then s.target else c1
        let c3 : ℚ := if s.duration < elapsed then s.target else c2
        { s with current := JSVal.num c3, textContent := fmt c3 }
      else s
    if currentGE s1.current s1.target then { s1 with state := ANIM_COMPLETE }
    else s1

/-- `disable()` (source lines 310-315): reset, mark DISABLED, remove the
scroll listener. -/
def disable (fmt : ℚ → String) (s : Counter) : Counter :=
  let s1 := reset fmt s
  { s1 with state := ANIM_DISABLED, listening := false }

/-- `enable()` (source lines 320-325): reset, animate immediately when the
node is in view, then add the scroll listener.  The READY branch of
`animate` ignores its timestamp argument (JavaScript passes `undefined`
here), so `0` is passed as the unused `t`. -/
def enable (fmt : ℚ → String) (inV : Bool) (now : ℚ) (s : Counter) : Counter :=
  let s1 := reset fmt s
  let s2 := if inV then animate fmt now 0 s1 else s1
  { s2 with listening := true }

/-- `animateOnScroll()` (source lines 347-360).  `inV` is the result of
`this.inView()`; the `this.animate()` call passes no timestamp (the READY
branch never reads it).  `!this.limit` is JavaScript falsiness of a number,
i.e. `limit = 0`. -/
def animateOnScroll (fmt : ℚ → String) (inV : Bool) (now : ℚ) (s : Counter) :
    Counter :=
  if s.limit = 0 ∨ s.count < s.limit then
    if inV = false then reset fmt s
    else if s.state = ANIM_READY then animate fmt now 0 s
    else s
  else if s.state ≠ ANIM_ACTIVE then disable fmt s
  else s

/-! ## Construction layer

The constructor (source lines 150-254) parses the `data-counter` attribute.
`parseInt`/`parseFloat` return `NaN` instead of failing; `none` models
`NaN`. -/

/-- Numeric value of a list of decimal digit characters. -/
def digitsToNat (ds : List Char) : ℕ :=
  List.foldl (fun a c => 10 * a + (c.toNat - 48)) 0 ds

/-- Leading run of decimal digits. -/
def takeDigits (cs : List Char) : List Char :=
  cs.takeWhile Char.isDigit

/-- Optional sign prefix: returns the sign and the remaining characters. -/
def splitSign (cs : List Char) : ℚ × List Char :=
  match cs with
  | [] => (1, [])
  | c :: r => if c = '-' then (-1, r) else if c = '+' then (1, r) else (1, c :: r)

/-- Split a character list at every `':'`, keeping empty groups, as
JavaScript `String.prototype.split(":")` does. -/
def splitColonChars (cs : List Char) : List (List Char) :=
  match cs with
  | [] => [[]]
  | c :: r =>
    if c = ':' then [] :: splitColonChars r
    else
      match splitColonChars r with
      | [] => [[c]]
      | g :: gs => (c :: g) :: gs

/-- Model of JavaScript `element.dataset.counter.split(':')` (source line
152).  Always returns at least one segment (`"".split(":")` is `[""]`). -/
def jsSplitColon (s : String) : List String :=
  (splitColonChars s.toList).map (fun g => String.mk g)

/-- Model of JavaScript `parseInt(s)` (radix 10): skip leading spaces,
optional sign, then the leading digit run; `NaN` (`none`) when no digit is
found.  Hex prefixes and non-space whitespace are not modelled; no directive
segment in the claims uses them. -/
def jsParseInt (s : String) : Option ℚ :=
  let cs := s.toList.dropWhile (fun c => c = ' ')
  let p := splitSign cs
  let ds := takeDigits p.2
  if ds.isEmpty then none else some (p.1 * digitsToNat ds)

/-- Model of JavaScript `parseFloat(s)`: skip leading spaces, optional sign,
integer digits, optional `.` and fraction digits; `NaN` (`none`) when no
digit occurs on either side of the point.  Exponent notation is not
modelled; no directive segment in the claims uses it. -/
def jsParseFloat (s : String) : Option ℚ :=
  let cs := s.toList.dropWhile (fun c => c = ' ')
  let p := splitSign cs
  let ip := takeDigits p.2
  let rest := p.2.drop ip.length
  match rest with
  | '.' :: r =>
    let fp := takeDigits r
    if ip.isEmpty ∧ fp.isEmpty then none
    else some (p.1 * ((digitsToNat ip : ℚ) + (digitsToNat fp : ℚ) / 10 ^ fp.length))
  | _ => if ip.isEmpty then none else some (p.1 * digitsToNat ip)

/-- The thrown `TypeError`: reading `.split` of `undefined` (missing
`data-counter` attribute) or `.indexOf` of `undefined` (directive with a
single segment, source line 153). -/
inductive JSError where
  | typeError
deriving DecidableEq

/-- Options object (source lines 170-174).  A field is `none` when the
option is absent or not of type `number` (the constructor then keeps the
default).  `debug` and `language` are omitted as in `Counter`. -/
structure Opts where
  limit : Option ℚ := none
  precision : Option ℚ := none
deriving DecidableEq

/-- The numeric fields the constructor computes before the formatter is
built (source lines 155-174).  `start`, `target`, `duration` are `none`
when the JavaScript value would be `NaN`. -/
structure RawCounter where
  start : Option ℚ
  target : Option ℚ
  current : Option ℚ
  duration : Option ℚ
  precision : ℚ
  increment : ℚ
  limit : ℚ
deriving DecidableEq

/-- The constructor (source lines 150-254) up to the point where the
formatter is built.  `attr` is `element.dataset.counter` (`none` when the
attribute is missing).  Faithful points: a missing attribute throws
(`undefined.split`); a directive without a second segment throws at
`data[1].indexOf('.')`; non-numeric start/target segments do **not** throw —
`parseInt`/`parseFloat` just return `NaN`; a present but unparseable
duration segment gives `1000 * NaN = NaN`, only an *absent* segment gives
the default `1000 * 1.5`; the increment tests `this.target > 20` /
`this.target > 10` are false for `NaN`, giving `0.01`.  The `[]` branch is
unreachable: `String.split` never returns an empty array. -/
def mkCounter (attr : Option String) (opts : Opts) : Except JSError RawCounter :=
  match attr with
  | none => .error .typeError
  | some a =>
    match jsSplitColon a with
    | d0 :: d1 :: rest =>
      let start := if d0.toList.contains '.' then jsParseFloat d0 else jsParseInt d0
      let target := if d1.toList.contains '.' then jsParseFloat d1 else jsParseInt d1
      let duration := match rest.head? with
        | some d2 => (jsParseFloat d2).map (fun q => 1000 * q)
        | none => some 1500
      let precision : ℚ := match d1.toList.findIdx? (fun c => c = '.') with
        | some i => ((d1.toList.length - i - 1 : ℕ) : ℚ)
        | none => 0
      let increment : ℚ := match target with
        | some tq => if 20 < tq then 1 else if 10 < tq then 1 / 10 else 1 / 100
        | none => 1 / 100
      .ok { start := start
            target := target
            current := start
            duration := duration
            precision := opts.precision.getD precision
            increment := increment
            limit := opts.limit.getD 0 }
    | [_] => .error .typeError
    | [] => .error .typeError

/-- Whether construction succeeded (reached the end of field computation). -/
def ctorOk (r : Except JSError RawCounter) : Bool :=
  match r with
  | .ok _ => true
  | .error _ => false

/-- The `duration` field of a successful construction (`none` at the outer
level when construction threw). -/
def rawDuration (r : Except JSError RawCounter) : Option (Option ℚ) :=
  match r with
  | .ok c => some c.duration
  | .error _ => none

/-- Package a `RawCounter` whose numeric fields all parsed into the machine
state, with the node's initial text `txt`.  The field initialisers give
`state = -1`, `timestamp = 0`, `count = 0` (source lines 105-132); the
constructor then calls `enable()`. -/
def toCounter (r : RawCounter) (txt : String) : Option Counter :=
  match r.start, r.target, r.duration with
  | some s0, some t0, some d0 =>
    some { start := s0
           target := t0
           increment := r.increment
           duration := d0
           timestamp := 0
           limit := r.limit
           count := 0
           current := JSVal.num s0
           textContent := txt
           state := -1
           listening := false }
  | _, _, _ => none

/-- An inert placeholder returned by `counterOfDirective` on the (unused)
failure paths. -/
def defaultCounter : Counter :=
  { start := 0, target := 0, increment := 1, duration := 1500, timestamp := 0
    limit := 0, count := 0, current := JSVal.num 0, textContent := ""
    state := -1, listening := false }

/-- The machine state produced by constructing a counter from directive `a`
with default options (before `enable()` runs). -/
def counterOfDirective (a : String) : Counter :=
  match mkCounter (some a) {} with
  | .ok r => (toCounter r "").getD defaultCounter
  | .error _ => defaultCounter

/-! ## Event layer (for the temporal claim) -/

/-- External events that can reach a constructed instance: a document scroll
event (dispatched to `animateOnScroll` only while the listener is
registered) and an animation-frame callback. -/
inductive Event where
  | scroll (inV : Bool) (now : ℚ)
  | frame (now t : ℚ)

/-- Dispatch of one event. -/
def step (fmt : ℚ → String) (s : Counter) (e : Event) : Counter :=
  match e with
  | .scroll inV now => if s.listening then animateOnScroll fmt inV now s else s
  | .frame now t => animate fmt now t s

/-- Dispatch of a sequence of events. -/
def runEvents (fmt : ℚ → String) (s : Counter) (es : List Event) : Counter :=
  List.foldl (step fmt) s es

/-! ## Concrete instances used by the counterexamples and witnesses -/

/-- A trivial formatter; the animation arithmetic never depends on the
formatter's output. -/
def fmt0 : ℚ → String := fun _ => ""

/-- Counter from directive `"1:5"` right after `enable` with the element in
view: the READY→ACTIVE transition has happened at clock time `0`. -/
def counterRun0 : Counter := enable fmt0 true 0 (counterOfDirective "1:5")

/-- State after the first ACTIVE frame, at timestamp 300 ms. -/
def counterRun1 : Counter := animate fmt0 0 300 counterRun0

/-- State after the second ACTIVE frame, at timestamp 600 ms. -/
def counterRun2 : Counter := animate fmt0 0 600 counterRun1

/-- A mid-animation state of a counter for directive `"0:100"` (start 0,
target 100, increment 1, default duration), one frame into its run. -/
def activeCounter : Counter :=
  { start := 0, target := 100, increment := 1, duration := 1500,
    timestamp := 0, limit := 1, count := 1, current := JSVal.num 0,
    textContent := "", state := 1, listening := true }

/-- The same counter after its run completed with `limit = 1` and
`count = 1`. -/
def overLimitCounter : Counter :=
  { start := 0, target := 100, increment := 1, duration := 1500,
    timestamp := 0, limit := 1, count := 1, current := JSVal.num 100,
    textContent := "", state := 2, listening := true }

/-- The same counter after `disable()` ran. -/
def disabledCounter : Counter :=
  { start := 0, target := 100, increment := 1, duration := 1500,
    timestamp := 0, limit := 1, count := 1, current := JSVal.str "",
    textContent := "", state := -1, listening := false }

/-! ## Evaluation lemmas for the concrete instances -/

/-- Constructing from directive `"0:15"`: integer parse, increment `0.1`
because `10 < 15 ≤ 20`, default duration. -/
theorem counterOfDirective_zero15 : counterOfDirective "0:15" =
    { start := 0, target := 15, increment := 1/10, duration := 1500,
      timestamp := 0, limit := 0, count := 0, current := JSVal.num 0,
      textContent := "", state := -1, listening := false } := by
  simp +decide only [counterOfDirective, mkCounter, jsSplitColon, splitColonChars,
    jsParseInt, jsParseFloat, splitSign, takeDigits, digitsToNat, toCounter,
    String.toList, List.dropWhile, List.takeWhile, List.foldl, List.map,
    List.contains, List.elem, List.findIdx?, List.head?, List.drop, List.length,
    Option.getD, Option.map, Char.isDigit, Char.toNat, List.isEmpty]
  simp +decide
  norm_num

/-- Constructing from directive `"1:5"`: increment `0.01` because `5 ≤ 10`. -/
theorem counterOfDirective_one5 : counterOfDirective "1:5" =
    { start := 1, target := 5, increment := 1/100, duration := 1500,
      timestamp := 0, limit := 0, count := 0, current := JSVal.num 1,
      textContent := "", state := -1, listening := false } := by
  simp +decide only [counterOfDirective, mkCounter, jsSplitColon, splitColonChars,
    jsParseInt, jsParseFloat, splitSign, takeDigits, digitsToNat, toCounter,
    String.toList, List.dropWhile, List.takeWhile, List.foldl, List.map,
    List.contains, List.elem, List.findIdx?, List.head?, List.drop, List.length,
    Option.getD, Option.map, Char.isDigit, Char.toNat, List.isEmpty]
  simp +decide
  norm_num

/-- After `enable` with the element in view: READY→ACTIVE done, `count = 1`. -/
theorem counterRun0_eq : counterRun0 =
    { start := 1, target := 5, increment := 1/100, duration := 1500,
      timestamp := 0, limit := 0, count := 1, current := JSVal.num 1,
      textContent := "", state := 1, listening := true } := by
  rw [counterRun0, counterOfDirective_one5]
  norm_num [enable, reset, animate, fmt0, ANIM_DISABLED, ANIM_READY,
    ANIM_ACTIVE, ANIM_COMPLETE]

/-- First frame at 300 ms: `steps() = 5 - 1/0.01 = -95`, so the quantized
current value is `round(-95 * (300/1500) / 0.01) * 0.01 = -19`. -/
theorem counterRun1_eq : counterRun1 =
    { start := 1, target := 5, increment := 1/100, duration := 1500,
      timestamp := 0, limit := 0, count := 1, current := JSVal.num (-19),
      textContent := "", state := 1, listening := true } := by
  rw [counterRun1, counterRun0_eq]
  norm_num [animate, steps, currentGE, round_eq, fmt0, ANIM_DISABLED,
    ANIM_READY, ANIM_ACTIVE, ANIM_COMPLETE]

/-- Second frame at 600 ms: the current value falls further, to `-38`. -/
theorem counterRun2_eq : counterRun2 =
    { start := 1, target := 5, increment := 1/100, duration := 1500,
      timestamp := 0, limit := 0, count := 1, current := JSVal.num (-38),
      textContent := "", state := 1, listening := true } := by
  rw [counterRun2, counterRun1_eq]
  norm_num [animate, steps, currentGE, round_eq, fmt0, ANIM_DISABLED,
    ANIM_READY, ANIM_ACTIVE, ANIM_COMPLETE]

/-! ## Claim theorems -/

/-- C1: the claim states `steps() = (target - start) / increment`, but the
source (line 380) computes `target - start / increment`.  For the counter
built from directive `"0:15"` (start `0`, target `15`, increment `0.1`) the
code returns `15` while the claimed formula gives `150`.  The code
contradicts its own doc comment ("the number of increment steps based on
the minimum increment"): an operator-precedence slip. -/
theorem steps_is_not_range_over_increment :
    steps (counterOfDirective "0:15") = 15 ∧
    ((counterOfDirective "0:15").target - (counterOfDirective "0:15").start) /
        (counterOfDirective "0:15").increment = 150 := by
  rw [counterOfDirective_zero15]
  norm_num [steps]

/-- C3: the claim states that `current` is monotonically non-decreasing
across successive frame updates of an ACTIVE run.  For the validly
constructed counter of directive `"1:5"`, the defective `steps()` is `-95`,
so successive frames at 300 ms and 600 ms drive `current` from `-19` down to
`-38`: a strict decrease. -/
theorem current_decreases_across_frames :
    counterRun1.state = ANIM_ACTIVE ∧
    counterRun1.current = JSVal.num (-19) ∧
    counterRun2.current = JSVal.num (-38) ∧ (-38 : ℚ) < (-19 : ℚ) := by
  rw [counterRun1_eq, counterRun2_eq]
  norm_num [ANIM_ACTIVE]

/-- C4 counterexample: for the counter of directive `"1:5"` (so
`target = 5 ≥ 1 = start`), one ACTIVE frame update leaves
`current = -19`, strictly below `start`: `current` does not remain within
`[start, target]`. -/
theorem current_escapes_interval :
    counterRun1.start = 1 ∧ counterRun1.target = 5 ∧
    counterRun1.current = JSVal.num (-19) ∧ ¬((1 : ℚ) ≤ -19) := by
  rw [counterRun1_eq]
  norm_num

/-- C5: `reset()` always writes the formatted target to the node, zeroes the
timestamp and returns the state machine to READY, from any state (source
lines 365-371). -/
theorem reset_shows_target_and_ready (fmt : ℚ → String) (s : Counter) :
    (reset fmt s).textContent = fmt s.target ∧ (reset fmt s).timestamp = 0 ∧
    (reset fmt s).state = ANIM_READY :=
  ⟨rfl, rfl, rfl⟩

/-- C2: on any ACTIVE frame with positive elapsed time, (i) if
`elapsed > duration` the current value is forced to the target and the node
receives the formatted target, and (ii) whenever the frame completes the
animation, the value written in that frame is the formatted target exactly
(the clamp at source line 290 makes `current ≥ target` imply
`current = target`). -/
theorem animate_completion_writes_formatted_target (fmt : ℚ → String)
    (now t : ℚ) (s : Counter) (hA : s.state = ANIM_ACTIVE)
    (he : 0 < t - s.timestamp) :
    (s.duration < t - s.timestamp →
      (animate fmt now t s).current = JSVal.num s.target ∧
      (animate fmt now t s).textContent = fmt s.target) ∧
    ((animate fmt now t s).state = ANIM_COMPLETE →
      (animate fmt now t s).textContent = fmt s.target) := by
  have h1 : ¬(s.state = ANIM_DISABLED) := by rw [hA]; decide
  have h2 : ¬(s.state = ANIM_COMPLETE) := by rw [hA]; decide
  have h3 : ¬(s.state = ANIM_READY) := by rw [hA]; decide
  by_cases hd : s.duration < t - s.timestamp
  · constructor
    · intro _
      simp only [animate, if_neg h1, if_neg h2, if_neg h3, if_pos he, if_pos hd,
        currentGE]
      simp
    · intro _
      simp only [animate, if_neg h1, if_neg h2, if_neg h3, if_pos he, if_pos hd,
        currentGE]
      simp
  · by_cases hcl : s.target ≤
        (round (steps s * ((t - s.timestamp) / s.duration) / s.increment) : ℚ) *
          s.increment
    · constructor
      · intro hd2
        exact absurd hd2 hd
      · intro _
        simp only [animate, if_neg h1, if_neg h2, if_neg h3, if_pos he,
          if_neg hd, if_pos hcl, currentGE]
        simp
    · constructor
      · intro hd2
        exact absurd hd2 hd
      · intro hc
        simp only [animate, if_neg h1, if_neg h2, if_neg h3, if_pos he,
          if_neg hd, if_neg hcl, currentGE] at hc
        simp only [decide_eq_true_eq, if_neg hcl] at hc
        rw [hA] at hc
        exact absurd hc (by decide)

/-- Witness for C2: the counter mid-run for directive `"0:100"`, on a frame
at 2000 ms (past the 1500 ms duration), is forced to its target and writes
the formatted target. -/
theorem animate_completion_writes_formatted_target_witness :
    ((animate fmt0 0 2000 activeCounter).current =
        JSVal.num activeCounter.target ∧
      (animate fmt0 0 2000 activeCounter).textContent =
        fmt0 activeCounter.target) ∧
    activeCounter.target = 100 :=
  ⟨(animate_completion_writes_formatted_target fmt0 0 2000 activeCounter rfl
      (by norm_num [activeCounter])).1 (by norm_num [activeCounter]), rfl⟩

/-- C4 amended: with `start = 0` (as in every scenario the spec lists) and a
non-negative target, the numeric value of `current` stays within
`[0, target]` after every `animate` frame; `reset` (and therefore `disable`,
which begins with `reset`) instead stores the formatted target *string* in
`current`. -/
theorem current_bounds_for_zero_start (fmt : ℚ → String) (now t : ℚ)
    (s : Counter) (hs : s.start = 0) (ht : 0 ≤ s.target) (hi : 0 < s.increment)
    (hc : ∀ q, s.current = JSVal.num q → 0 ≤ q ∧ q ≤ s.target) :
    (∀ q, (animate fmt now t s).current = JSVal.num q → 0 ≤ q ∧ q ≤ s.target) ∧
    (reset fmt s).current = JSVal.str (fmt s.target) ∧
    (disable fmt s).current = JSVal.str (fmt s.target) := by
  refine ⟨?_, rfl, rfl⟩
  intro q hq
  by_cases h1 : s.state = ANIM_DISABLED
  · simp only [animate, if_pos h1] at hq
    exact hc q hq
  by_cases h2 : s.state = ANIM_COMPLETE
  · simp only [animate, if_neg h1, if_pos h2] at hq
    exact hc q hq
  by_cases h3 : s.state = ANIM_READY
  · simp only [animate, if_neg h1, if_neg h2, if_pos h3] at hq
    injection hq with h
    subst h
    rw [hs]
    exact ⟨le_refl 0, ht⟩
  by_cases hel : 0 < t - s.timestamp
  · simp only [animate, if_neg h1, if_neg h2, if_neg h3, if_pos hel, currentGE,
      apply_ite Counter.current, ite_self] at hq
    injection hq with h
    subst h
    by_cases hd : s.duration < t - s.timestamp
    · simp only [if_pos hd]
      exact ⟨ht, le_refl _⟩
    · simp only [if_neg hd]
      have hdur2 : 0 < s.duration := lt_of_lt_of_le hel (le_of_not_lt hd)
      have hsteps : steps s = s.target := by
        rw [steps, hs, zero_div, sub_zero]
      by_cases hcl : s.target ≤
          (round (steps s * ((t - s.timestamp) / s.duration) / s.increment) : ℚ) *
            s.increment
      · simp only [if_pos hcl]
        exact ⟨ht, le_refl _⟩
      · simp only [if_neg hcl]
        constructor
        · have hx : 0 ≤ steps s * ((t - s.timestamp) / s.duration) / s.increment := by
            rw [hsteps]
            apply div_nonneg
            · exact mul_nonneg ht (div_nonneg (le_of_lt hel) (le_of_lt hdur2))
            · exact le_of_lt hi
          have hr : (0 : ℤ) ≤
              round (steps s * ((t - s.timestamp) / s.duration) / s.increment) := by
            rw [round_eq]
            apply Int.floor_nonneg.mpr
            linarith
          exact mul_nonneg (by exact_mod_cast hr) (le_of_lt hi)
        · exact le_of_not_le hcl
  · simp only [animate, if_neg h1, if_neg h2, if_neg h3, if_neg hel, currentGE,
      apply_ite Counter.current, ite_self] at hq
    exact hc q hq

/-- Witness for C4 (amended): one frame of the `"0:100"` counter at 300 ms
computes `current = 20`, which the theorem places inside `[0, 100]`. -/
theorem current_bounds_for_zero_start_witness :
    0 ≤ (20 : ℚ) ∧ (20 : ℚ) ≤ activeCounter.target :=
  (current_bounds_for_zero_start fmt0 0 300 activeCounter rfl
      (by norm_num [activeCounter]) (by norm_num [activeCounter])
      (fun q hq => by
        have h0 : JSVal.num 0 = JSVal.num q := hq
        injection h0 with h
        subst h
        norm_num [activeCounter])).1 20
    (by norm_num [animate, steps, currentGE, round_eq, activeCounter, fmt0,
      ANIM_DISABLED, ANIM_READY, ANIM_ACTIVE, ANIM_COMPLETE])

/-- C6 counterexample: directive `"abc:def"` has start and target segments
that are not parseable as numbers (`parseInt` gives `NaN`), yet construction
runs to completion instead of failing. -/
theorem construction_succeeds_on_unparseable_numbers :
    ctorOk (mkCounter (some "abc:def") {}) = true ∧
    jsParseInt "abc" = none ∧ jsParseInt "def" = none := by
  refine ⟨?_, ?_, ?_⟩ <;> decide

/-- C6 amended: construction fails exactly when the attribute is missing or
the directive has fewer than two colon-separated segments (reading
`data[1].indexOf` of `undefined` throws); a present but non-numeric start or
target does not fail — the fields just become `NaN`. -/
theorem construction_fails_iff_too_few_segments :
    (∀ o : Opts, ctorOk (mkCounter none o) = false) ∧
    (∀ (a : String) (o : Opts),
      ctorOk (mkCounter (some a) o) = decide (2 ≤ (jsSplitColon a).length)) := by
  constructor
  · intro o
    rfl
  · intro a o
    cases h : jsSplitColon a with
    | nil => simp [mkCounter, h, ctorOk]
    | cons d0 tl =>
      cases tl with
      | nil => simp [mkCounter, h, ctorOk]
      | cons d1 rest => simp [mkCounter, h, ctorOk]

/-- C7 counterexample: directive `"0:100:abc"` has a duration segment that
is present but not parseable; the computed duration is `1000 * NaN = NaN`
(modelled `none`), not the claimed default of 1500 ms. -/
theorem unparseable_duration_gives_no_default :
    rawDuration (mkCounter (some "0:100:abc") {}) = some none ∧
    jsParseFloat "abc" = none ∧
    rawDuration (mkCounter (some "0:100:abc") {}) ≠ some (some 1500) := by
  refine ⟨by decide, by decide, ?_⟩
  rw [show rawDuration (mkCounter (some "0:100:abc") {}) = some none from by decide]
  simp

/-- C7 amended: the 1500 ms default applies only when the duration segment
is absent (`typeof data[2] != 'undefined'` is the only test, source line
159); a present segment is always `1000 * parseFloat(segment)`, which is
`NaN` when the segment is unparseable. -/
theorem duration_default_only_when_segment_absent (a : String) (o : Opts)
    (d0 d1 : String) (rest : List String)
    (h : jsSplitColon a = d0 :: d1 :: rest) :
    rawDuration (mkCounter (some a) o) =
      some (match rest.head? with
        | some d2 => (jsParseFloat d2).map (fun q => 1000 * q)
        | none => some 1500) := by
  simp [mkCounter, h, rawDuration]

/-- Witness for C7 (amended): directive `"0:100"` with no duration segment
gets the 1500 ms default. -/
theorem duration_default_only_when_segment_absent_witness :
    rawDuration (mkCounter (some "0:100") {}) = some (some 1500) :=
  duration_default_only_when_segment_absent "0:100" {} "0" "100" [] (by decide)

/-- C8: a scroll event with `limit > 0`, `count ≥ limit` and state not
ACTIVE calls `disable` (state becomes DISABLED, listener removed); with
`limit = 0` or `count < limit` the handler never disables the instance and
never touches the listener (source lines 347-360). -/
theorem scroll_disables_only_over_limit (fmt : ℚ → String) (inV : Bool)
    (now : ℚ) (s : Counter) :
    (0 < s.limit → s.limit ≤ s.count → s.state ≠ ANIM_ACTIVE →
      (animateOnScroll fmt inV now s).state = ANIM_DISABLED ∧
      (animateOnScroll fmt inV now s).listening = false) ∧
    ((s.limit = 0 ∨ s.count < s.limit) →
      ((animateOnScroll fmt inV now s).state = ANIM_DISABLED →
        s.state = ANIM_DISABLED) ∧
      (animateOnScroll fmt inV now s).listening = s.listening) := by
  constructor
  · intro hl hcnt hact
    have hcond : ¬(s.limit = 0 ∨ s.count < s.limit) := by
      push_neg
      exact ⟨ne_of_gt hl, hcnt⟩
    simp only [animateOnScroll, if_neg hcond, if_pos hact]
    exact ⟨rfl, rfl⟩
  · intro hcond
    simp only [animateOnScroll, if_pos hcond]
    by_cases hv : inV = false
    · simp only [if_pos hv]
      constructor
      · intro hr
        simp only [reset, ANIM_READY, ANIM_DISABLED] at hr
        exact absurd hr (by decide)
      · rfl
    · simp only [if_neg hv]
      by_cases hr : s.state = ANIM_READY
      · simp only [if_pos hr]
        have h1 : ¬(s.state = ANIM_DISABLED) := by rw [hr]; decide
        have h2 : ¬(s.state = ANIM_COMPLETE) := by rw [hr]; decide
        constructor
        · intro h
          simp only [animate, if_neg h1, if_neg h2, if_pos hr] at h
          exact absurd h (by decide)
        · simp only [animate, if_neg h1, if_neg h2, if_pos hr]
      · simp only [if_neg hr]
        exact ⟨fun h => h, trivial⟩

/-- Witness for C8: the completed counter with `limit = 1`, `count = 1`
(state COMPLETE) is disabled by the next scroll event. -/
theorem scroll_disables_only_over_limit_witness :
    (animateOnScroll fmt0 true 0 overLimitCounter).state = ANIM_DISABLED ∧
    (animateOnScroll fmt0 true 0 overLimitCounter).listening = false :=
  (scroll_disables_only_over_limit fmt0 true 0 overLimitCounter).1
    (by norm_num [overLimitCounter]) (by norm_num [overLimitCounter])
    (by norm_num [overLimitCounter, ANIM_ACTIVE])

/-- A single dispatched event leaves a disabled, listener-free instance
untouched: scroll events are not delivered (the listener was removed) and
`animate` returns immediately in the DISABLED state (source line 263). -/
theorem step_preserves_disabled (fmt : ℚ → String) (s : Counter) (e : Event)
    (hd : s.state = ANIM_DISABLED) (hl : s.listening = false) :
    step fmt s e = s := by
  cases e with
  | scroll inV now => simp [step, hl]
  | frame now t => simp only [step, animate, if_pos hd]

/-- C9: once the state is DISABLED and the scroll listener removed (exactly
the post-state of `disable`), no sequence of scroll events and frame
callbacks ever changes `node.textContent`. -/
theorem disabled_never_writes (fmt : ℚ → String) (now t : ℚ) (s : Counter)
    (hd : s.state = ANIM_DISABLED) (hl : s.listening = false) :
    animate fmt now t s = s ∧
    ∀ es : List Event, (runEvents fmt s es).textContent = s.textContent := by
  constructor
  · simp only [animate, if_pos hd]
  · intro es
    have hrun : runEvents fmt s es = s := by
      induction es with
      | nil => rfl
      | cons e es2 ih =>
        show runEvents fmt (step fmt s e) es2 = s
        rw [step_preserves_disabled fmt s e hd hl]
        exact ih
    rw [hrun]

/-- Witness for C9: the disabled counter ignores a late frame callback and a
scroll-then-frame event sequence. -/
theorem disabled_never_writes_witness :
    animate fmt0 0 500 disabledCounter = disabledCounter ∧
    (runEvents fmt0 disabledCounter
        [Event.scroll true 0, Event.frame 0 700]).textContent =
      disabledCounter.textContent := by
  have h := disabled_never_writes fmt0 0 500 disabledCounter rfl rfl
  exact ⟨h.1, h.2 [Event.scroll true 0, Event.frame 0 700]⟩

/-- C10: `enable()` from any state resets (node shows the formatted target),
registers the scroll listener, and — when the element is in view —
immediately starts the animation, incrementing `count`; the resulting state
never depends on `limit` or `count`, so DISABLED is not terminal with
respect to `enable()` (source lines 320-325). -/
theorem enable_restarts_from_any_state (fmt : ℚ → String) (inV : Bool)
    (now : ℚ) (s : Counter) :
    (enable fmt inV now s).textContent = fmt s.target ∧
    (enable fmt inV now s).listening = true ∧
    (enable fmt inV now s).state = (if inV then ANIM_ACTIVE else ANIM_READY) ∧
    (enable fmt inV now s).count = s.count + (if inV then 1 else 0) ∧
    (enable fmt inV now s).current =
      (if inV then JSVal.num s.start else JSVal.str (fmt s.target)) ∧
    (enable fmt inV now s).timestamp = (if inV then now else 0) ∧
    (∀ l c : ℚ, (enable fmt inV now { s with limit := l, count := c }).state =
      (enable fmt inV now s).state) := by
  cases inV <;>
    norm_num [enable, reset, animate, ANIM_READY, ANIM_ACTIVE, ANIM_DISABLED,
      ANIM_COMPLETE]

end AnimatedCounter
